import Mathlib

/-!
Verification of the senslify web application core against its specification.

The development shallowly embeds the two subsystems the claims are about:

* `senslify/sockets.py` — the session registry (rooms) and broadcast
  dispatcher: `_does_room_exist`, `_does_ws_exist`, `_join`, `_leave`,
  `_change_stream`, `message`.
* `senslify/db.py` (`MongoProvider`) and `senslify/rest.py`
  (`_provision_handler`) — the storage provider operations and the
  provisioning handler built on them.

Python dicts are modelled as insertion-ordered association lists
(`PyDict`), Python exceptions as `Except` errors, machine floats as `Rat`.
Python dict keys are heterogeneous: the rooms dict is keyed by
`(groupid, sensorid)` tuples, while `_join`'s guard asks whether the bare
integer `sensorid` is a key; the key type `PyKey` below has both shapes so
that this cross-type comparison (always `False` in Python) is represented
faithfully.
-/

namespace Senslify

/-! ## Python dictionaries as association lists -/

namespace PyDict

/-- `d[k]` as an optional lookup: first binding of `k` wins (a Python dict
has at most one binding per key; code below only builds such lists). -/
def lookup [DecidableEq α] : List (α × β) → α → Option β
  | [], _ => none
  | (k', v) :: t, k => if k' = k then some v else lookup t k

/-- `k in d`. -/
def mem [DecidableEq α] (m : List (α × β)) (k : α) : Bool :=
  (lookup m k).isSome

/-- `d[k] = v`: updates the binding in place if `k` is already a key,
otherwise appends it (Python dicts preserve insertion order). -/
def set [DecidableEq α] : List (α × β) → α → β → List (α × β)
  | [], k, v => [(k, v)]
  | (k', v') :: t, k, v =>
      if k' = k then (k, v) :: t else (k', v') :: set t k v

/-- `del d[k]`: removes the binding of `k`. -/
def erase [DecidableEq α] : List (α × β) → α → List (α × β)
  | [], _ => []
  | (k', v') :: t, k => if k' = k then t else (k', v') :: erase t k

theorem lookup_set_self [DecidableEq α] (m : List (α × β)) (k : α) (v : β) :
    lookup (set m k v) k = some v := by
  induction m with
  | nil => simp [set, lookup]
  | cons hd t ih =>
      obtain ⟨k', v'⟩ := hd
      by_cases h : k' = k
      · simp [set, h, lookup]
      · simp [set, h, lookup, ih]

theorem lookup_set_ne [DecidableEq α] (m : List (α × β)) (k k' : α) (v : β)
    (h : k' ≠ k) : lookup (set m k v) k' = lookup m k' := by
  induction m with
  | nil => simp [set, lookup, Ne.symm h]
  | cons hd t ih =>
      obtain ⟨k₀, v₀⟩ := hd
      by_cases h₀ : k₀ = k
      · subst h₀
        simp [set, lookup, Ne.symm h]
      · simp [set, h₀, lookup, ih]

theorem set_set [DecidableEq α] (m : List (α × β)) (k : α) (v w : β) :
    set (set m k v) k w = set m k w := by
  induction m with
  | nil => simp [set]
  | cons hd t ih =>
      obtain ⟨k', v'⟩ := hd
      by_cases h : k' = k
      · simp [set, h]
      · simp [set, h, ih]

end PyDict

/-! ## Session registry (`senslify/sockets.py`) -/

/-- A live WebSocket connection handle. -/
abbrev WS := Nat

/-- A key of the Python `rooms` dict. The code stores rooms under
`(groupid, sensorid)` tuples, but `_join` tests membership of the bare
`sensorid` integer; in Python an `int` never equals a `tuple`, which the
two constructors reflect. -/
inductive PyKey where
  | int (n : Int)
  | pair (g s : Int)
deriving DecidableEq, Repr

/-- A room: the dict mapping each member connection to its currently
selected reading-type filter. -/
abbrev RoomMap := List (WS × Int)

/-- The rooms dict held in `app[rooms]`. -/
abbrev Rooms := List (PyKey × RoomMap)

/-- `_does_room_exist(rooms, groupid, sensorid)` (sockets.py:28-38). -/
def _does_room_exist (rooms : Rooms) (groupid sensorid : Int) : Bool :=
  if ¬ PyDict.mem rooms (PyKey.pair groupid sensorid) then false else true

/-- `_does_ws_exist(rooms, groupid, sensorid, ws)` (sockets.py:41-54). -/
def _does_ws_exist (rooms : Rooms) (groupid sensorid : Int) (ws : WS) : Bool :=
  if ¬ _does_room_exist rooms groupid sensorid then false
  else if ¬ PyDict.mem ((PyDict.lookup rooms (PyKey.pair groupid sensorid)).getD []) ws then false
  else true

/-- `_leave(rooms, groupid, sensorid, ws)` (sockets.py:57-69). -/
def _leave (rooms : Rooms) (groupid sensorid : Int) (ws : WS) : Rooms :=
  if ¬ _does_ws_exist rooms groupid sensorid ws then rooms
  else
    PyDict.set rooms (PyKey.pair groupid sensorid)
      (PyDict.erase ((PyDict.lookup rooms (PyKey.pair groupid sensorid)).getD []) ws)

/-- `_join(rooms, groupid, sensorid, ws)` (sockets.py:72-90). Returns the
success flag together with the updated rooms dict. The guard on line 83 is
`if sensorid not in rooms`: it tests the bare integer `sensorid` against a
dict keyed by `(groupid, sensorid)` tuples, so on any rooms dict whose keys
are all tuples it fires and `rooms[(groupid, sensorid)] = dict()` replaces
the room. If the guard did not fire and `(groupid, sensorid)` is not a key,
line 86 raises `KeyError`, which the bare `except` turns into `False`. -/
def _join (rooms : Rooms) (groupid sensorid : Int) (ws : WS) : Bool × Rooms :=
  let rooms1 :=
    if ¬ PyDict.mem rooms (PyKey.int sensorid) then
      PyDict.set rooms (PyKey.pair groupid sensorid) []
    else rooms
  match PyDict.lookup rooms1 (PyKey.pair groupid sensorid) with
  | none => (false, rooms1)
  | some room =>
      if ¬ PyDict.mem room ws then
        (true, PyDict.set rooms1 (PyKey.pair groupid sensorid) (PyDict.set room ws 0))
      else (true, rooms1)

/-- `_change_stream(rooms, groupid, sensorid, ws, rtypeid)`
(sockets.py:93-106). -/
def _change_stream (rooms : Rooms) (groupid sensorid : Int) (ws : WS) (rtypeid : Int) : Rooms :=
  if ¬ _does_ws_exist rooms groupid sensorid ws then rooms
  else
    PyDict.set rooms (PyKey.pair groupid sensorid)
      (PyDict.set ((PyDict.lookup rooms (PyKey.pair groupid sensorid)).getD []) ws rtypeid)

/-- A Python exception escaping a sockets function. -/
inductive PyExc where
  | nameError (n : String)
  | keyError (k : String)
deriving DecidableEq, Repr

/-- A reading message handed to `message` (a Python dict; `Option` fields
model the possibility that a key is absent, which raises `KeyError`). -/
structure Msg where
  rtypeid : Option Int
  ts : Option Int
  val : Option Rat
  rstring : Option String
deriving DecidableEq, Repr

/-- `msg[name]`: `KeyError` when the field is absent. -/
def getItem (v : Option α) (name : String) : Except PyExc α :=
  match v with
  | some x => Except.ok x
  | none => Except.error (PyExc.keyError name)

/-- `message(rooms, groupid, sensorid, msg)` (sockets.py:109-140). Returns
the list of `(connection, rtypeid)` deliveries performed. If the room does
not exist it returns without sending. Otherwise it builds the response
(reading each of the four message fields, so a missing field raises
`KeyError` — only the re-read of `rtypeid` on line 133 is inside a
`try`), and then line 138 iterates `rooms[(group, sensorid)].items()`:
the name `group` is unbound (the parameter is `groupid` and no module-level
`group` exists), so the loop raises `NameError` before any send. -/
def message (rooms : Rooms) (groupid sensorid : Int) (msg : Msg) :
    Except PyExc (List (WS × Int)) :=
  if ¬ _does_room_exist rooms groupid sensorid then Except.ok []
  else do
    let _rt ← getItem msg.rtypeid "rtypeid"
    let _ts ← getItem msg.ts "ts"
    let _val ← getItem msg.val "val"
    let _rs ← getItem msg.rstring "rstring"
    Except.error (PyExc.nameError "group")

/-- A rooms dict every key of which is a `(groupid, sensorid)` tuple: the
shape of every rooms dict the application ever builds (all writes use
tuple keys). -/
def wfRooms (rooms : Rooms) : Bool :=
  rooms.all fun kv => match kv.1 with
    | PyKey.pair _ _ => true
    | PyKey.int _ => false

theorem mem_int_of_wf (rooms : Rooms) (s : Int) (h : wfRooms rooms = true) :
    PyDict.mem rooms (PyKey.int s) = false := by
  induction rooms with
  | nil => rfl
  | cons hd t ih =>
      obtain ⟨k, v⟩ := hd
      simp only [wfRooms, List.all_cons, Bool.and_eq_true] at h
      cases k with
      | int n => simp at h
      | pair g s' =>
          have ht : wfRooms t = true := by
            simpa [wfRooms] using h.2
          simp [PyDict.mem, PyDict.lookup, ih ht] at *
          simpa [PyDict.mem] using ih ht

theorem wf_set_pair (rooms : Rooms) (g s : Int) (v : RoomMap)
    (h : wfRooms rooms = true) :
    wfRooms (PyDict.set rooms (PyKey.pair g s) v) = true := by
  induction rooms with
  | nil => simp [PyDict.set, wfRooms]
  | cons hd t ih =>
      obtain ⟨k, w⟩ := hd
      simp only [wfRooms, List.all_cons, Bool.and_eq_true] at h
      by_cases hk : k = PyKey.pair g s
      · subst hk
        simp only [PyDict.set, if_pos rfl]
        simpa [wfRooms] using h.2
      · simp only [PyDict.set, if_neg hk]
        have ht : wfRooms t = true := by simpa [wfRooms] using h.2
        simp only [wfRooms, List.all_cons, Bool.and_eq_true]
        exact ⟨h.1, by simpa [wfRooms] using ih ht⟩

/-- On any rooms dict with only tuple keys, `_join` resets the target room
and installs `ws` as its only member, with filter `0`. -/
theorem join_reset (rooms : Rooms) (g s : Int) (ws : WS)
    (h : wfRooms rooms = true) :
    _join rooms g s ws =
      (true, PyDict.set rooms (PyKey.pair g s) [(ws, 0)]) := by
  unfold _join
  rw [mem_int_of_wf rooms s h]
  simp [PyDict.lookup_set_self, PyDict.mem, PyDict.lookup, PyDict.set,
    PyDict.set_set]

/-! ## Traces of registry operations (for the temporal claim) -/

/-- An operation on the session registry: a `RQST_JOIN` (`_join`) or a
broadcast of a newly persisted reading (`message`, as invoked from the
upload handler in rest.py:244-248). -/
inductive SockOp where
  | join (g s : Int) (ws : WS)
  | msg (g s : Int) (m : Msg)

/-- Registry state plus the log of `(connection, rtypeid)` deliveries the
dispatcher has performed so far. -/
structure SockState where
  rooms : Rooms
  delivered : List (WS × Int)

/-- One step: `_join` updates the rooms dict; `message` appends its
deliveries — if it raises, the exception propagates to the caller and
nothing is delivered. -/
def sockStep (st : SockState) : SockOp → SockState
  | SockOp.join g s ws => { st with rooms := (_join st.rooms g s ws).2 }
  | SockOp.msg g s m =>
      match message st.rooms g s m with
      | Except.ok ds => { st with delivered := st.delivered ++ ds }
      | Except.error _ => st

/-- Run a sequence of join/message operations from the empty registry. -/
def sockRun (ops : List SockOp) : SockState :=
  ops.foldl sockStep ⟨[], []⟩

theorem message_ok_nil (rooms : Rooms) (g s : Int) (m : Msg) (ds : List (WS × Int))
    (h : message rooms g s m = Except.ok ds) : ds = [] := by
  unfold message at h
  by_cases hr : _does_room_exist rooms g s = true
  · simp only [hr] at h
    cases hrt : m.rtypeid <;> cases hts : m.ts <;> cases hv : m.val <;>
      cases hrs : m.rstring <;>
      simp [getItem, hrt, hts, hv, hrs, Bind.bind, Except.bind] at h
  · simp only [Bool.not_eq_true] at hr
    simp only [hr] at h
    simpa using h.symm

theorem sockRun_delivered_nil (ops : List SockOp) :
    (sockRun ops).delivered = [] := by
  suffices h : ∀ (st : SockState), st.delivered = [] →
      (ops.foldl sockStep st).delivered = [] by
    exact h ⟨[], []⟩ rfl
  induction ops with
  | nil => intro st hst; simpa using hst
  | cons op t ih =>
      intro st hst
      simp only [List.foldl_cons]
      apply ih
      cases op with
      | join g s ws => simpa [sockStep] using hst
      | msg g s m =>
          simp only [sockStep]
          cases hm : message st.rooms g s m with
          | ok ds => simp [message_ok_nil st.rooms g s m ds hm, hst]
          | error e => simpa using hst

/-! ## Claims about the session registry -/

/-- A concrete rooms dict: connection `7` has joined room `(0, 0)` and its
filter is the reading type `0` of the incoming reading. -/
def roomsC1 : Rooms := [(PyKey.pair 0 0, [(7, 0)])]

/-- The reading of the spec scenario: rtypeid 0, ts 1000, val 22.5. -/
def msgC1 : Msg :=
  { rtypeid := some 0, ts := some 1000, val := some (45 / 2),
    rstring := some "Temperature: 22.5" }

/-- Claim C1: the spec says `message` delivers the formatted reading to
exactly the members of the room whose filter equals the rtypeid of the
reading — here member `7` of room `(0,0)` with filter `0` should receive
exactly one message. Instead the broadcast loop on sockets.py:138 reads
`rooms[(group, sensorid)]` where the name `group` is unbound (the
parameter is `groupid`), so `message` raises `NameError` and delivers
nothing to anyone. -/
theorem message_raises_nameError_C1 :
    message roomsC1 0 0 msgC1 = Except.error (PyExc.nameError "group") := by
  rfl

/-- Claim C2: `_join` is idempotent — a second `_join` with the same
`(groupid, sensorid, ws)` returns `true` and leaves the rooms dict exactly
as after the first call — the room then holds the single membership
`(ws, 0)`. (This holds because every `_join` resets the room to contain
exactly `ws`; see `join_reset`.) -/
theorem join_idempotent_C2 (rooms : Rooms) (g s : Int) (ws : WS)
    (h : wfRooms rooms = true) :
    _join ((_join rooms g s ws).2) g s ws = _join rooms g s ws ∧
    (_join rooms g s ws).1 = true ∧
    PyDict.lookup ((_join rooms g s ws).2) (PyKey.pair g s) = some [(ws, 0)] := by
  have h1 := join_reset rooms g s ws h
  have hwf1 : wfRooms ((_join rooms g s ws).2) = true := by
    rw [h1]; exact wf_set_pair rooms g s [(ws, 0)] h
  have h2 := join_reset ((_join rooms g s ws).2) g s ws hwf1
  refine ⟨?_, by rw [h1], by rw [h1]; exact PyDict.lookup_set_self _ _ _⟩
  rw [h2, h1]
  simp [PyDict.set_set]

/-- Witness for C2 at the empty rooms dict, connection `5`, room `(1, 2)`. -/
theorem join_idempotent_C2_witness :
    wfRooms [] = true ∧
    (_join ((_join [] 1 2 5).2) 1 2 5 = _join [] 1 2 5 ∧
     (_join [] 1 2 5).1 = true ∧
     PyDict.lookup ((_join [] 1 2 5).2) (PyKey.pair 1 2) = some [(5, 0)]) :=
  ⟨rfl, join_idempotent_C2 [] 1 2 5 rfl⟩

/-- Claim C7: over every sequence of join and message operations, a member
that joined and never explicitly selected a stream receives no broadcast.
This holds of the code in a degenerate way: `message` never delivers to
any connection at all, because its broadcast loop raises `NameError`
(unbound name `group`, sockets.py:138) before the first send. -/
theorem default_filter_never_delivered_C7 (ops : List SockOp) (ws : WS)
    (rt : Int) : (ws, rt) ∉ (sockRun ops).delivered := by
  rw [sockRun_delivered_nil]
  exact List.not_mem_nil _

/-- Claim C9: on any rooms dict whose keys are all `(groupid, sensorid)`
tuples (as built by the application), `_join` unconditionally replaces the
target room with a fresh dict before inserting `ws` — its guard tests the
bare `sensorid` against tuple keys and so always fires. Afterwards the room
holds exactly the single member `ws` with filter `0`, every previous member
and filter of that room is discarded, and other rooms are untouched. -/
theorem join_resets_room_C9 (rooms : Rooms) (g s : Int) (ws : WS)
    (h : wfRooms rooms = true) :
    _join rooms g s ws = (true, PyDict.set rooms (PyKey.pair g s) [(ws, 0)]) ∧
    PyDict.lookup ((_join rooms g s ws).2) (PyKey.pair g s) = some [(ws, 0)] ∧
    ∀ k, k ≠ PyKey.pair g s →
      PyDict.lookup ((_join rooms g s ws).2) k = PyDict.lookup rooms k := by
  have h1 := join_reset rooms g s ws h
  refine ⟨h1, by rw [h1]; exact PyDict.lookup_set_self _ _ _, ?_⟩
  intro k hk
  rw [h1]
  exact PyDict.lookup_set_ne rooms (PyKey.pair g s) k [(ws, 0)] hk

/-- Witness for C9: a room `(0, 0)` already holding members `3` (filter 4)
and `4` (filter 1) is wiped by `_join` of connection `9`; the unrelated
room `(0, 1)` is untouched. -/
theorem join_resets_room_C9_witness :
    wfRooms [(PyKey.pair 0 0, [(3, 4), (4, 1)]), (PyKey.pair 0 1, [(8, 2)])] = true ∧
    (_join [(PyKey.pair 0 0, [(3, 4), (4, 1)]), (PyKey.pair 0 1, [(8, 2)])] 0 0 9 =
        (true, PyDict.set [(PyKey.pair 0 0, [(3, 4), (4, 1)]), (PyKey.pair 0 1, [(8, 2)])]
          (PyKey.pair 0 0) [(9, 0)]) ∧
      PyDict.lookup ((_join [(PyKey.pair 0 0, [(3, 4), (4, 1)]), (PyKey.pair 0 1, [(8, 2)])] 0 0 9).2)
          (PyKey.pair 0 0) = some [(9, 0)] ∧
      ∀ k, k ≠ PyKey.pair 0 0 →
        PyDict.lookup ((_join [(PyKey.pair 0 0, [(3, 4), (4, 1)]), (PyKey.pair 0 1, [(8, 2)])] 0 0 9).2) k =
          PyDict.lookup [(PyKey.pair 0 0, [(3, 4), (4, 1)]), (PyKey.pair 0 1, [(8, 2)])] k) :=
  ⟨rfl, join_resets_room_C9 [(PyKey.pair 0 0, [(3, 4), (4, 1)]), (PyKey.pair 0 1, [(8, 2)])] 0 0 9 rfl⟩

/-! ## Storage provider (`senslify/db.py`, class `MongoProvider`)

The four collections of the logical schema, plus the `_open` flag of the
provider. `DBError` is modelled by its message string. Operations that
mutate the backend return the updated state alongside their
result-or-exception, since mutations performed before an exception
persist. Accessing the connection while the provider is not open raises
(`_conn` is only assigned by `open()`, and a closed client refuses
commands); each operation's `except` clause converts any exception into a
`DBError`. -/

structure Group where
  groupid : Int
  aliasName : String
deriving DecidableEq, Repr

structure Sensor where
  sensorid : Int
  groupid : Int
  aliasName : String
deriving DecidableEq, Repr

structure RType where
  rtypeid : Int
  rtype : String
deriving DecidableEq, Repr

structure Reading where
  sensorid : Int
  groupid : Int
  rtypeid : Int
  ts : Int
  val : Rat
deriving DecidableEq, Repr

structure DBState where
  isOpen : Bool
  groups : List Group
  sensors : List Sensor
  rtypes : List RType
  readings : List Reading
deriving DecidableEq, Repr

abbrev DBError := String

/-- pymongo's `DeleteResult` (what `delete_one`/`delete_many` return — an
object, not an integer). -/
structure DeleteResult where
  deleted_count : Nat
deriving DecidableEq, Repr

/-- The single document the max-id aggregations produce (`{"max": ...}`,
projected per input document after a descending sort, so the first
document carries the maximum). -/
structure MaxDoc where
  max : Int
deriving DecidableEq, Repr

/-- Whether an operation raised. -/
def isErr : Except ε α → Bool
  | Except.error _ => true
  | Except.ok _ => false

/-- Maximum of a list of integers, `none` on the empty list (the empty
aggregation cursor). -/
def listMax : List Int → Option Int
  | [] => none
  | x :: xs =>
      match listMax xs with
      | none => some x
      | some m => some (max x m)

/-- Python truthiness of an optional integer argument (`if rtypeid:` —
`None` and `0` are both falsy, so a caller passing `rtypeid=0` gets the
unfiltered query). -/
def truthy : Option Int → Bool
  | none => false
  | some v => v != 0

/-- Insert into a list sorted descending by `ts`. -/
def insertTsDesc (r : Reading) : List Reading → List Reading
  | [] => [r]
  | x :: xs => if x.ts < r.ts then r :: x :: xs else x :: insertTsDesc r xs

/-- The `$sort {ts: -1}` pipeline stage. -/
def sortTsDesc (l : List Reading) : List Reading :=
  l.foldr insertTsDesc []

/-- `does_group_exist` (db.py:640-652). -/
def does_group_exist (st : DBState) (gid : Int) : Except DBError Bool :=
  if ¬ st.isOpen then
    Except.error "ERROR: Cannot determine if group exists, database connection not open!"
  else Except.ok (st.groups.any fun g => g.groupid == gid)

/-- `does_rtype_exist` (db.py:655-667). -/
def does_rtype_exist (st : DBState) (rid : Int) : Except DBError Bool :=
  if ¬ st.isOpen then
    Except.error "Cannot determine if rtype exists, database connection not open!"
  else Except.ok (st.rtypes.any fun t => t.rtypeid == rid)

/-- `does_sensor_exist` (db.py:670-683). -/
def does_sensor_exist (st : DBState) (sid gid : Int) : Except DBError Bool :=
  if ¬ st.isOpen then
    Except.error "Cannot determine if sensor exists, database connection not open!"
  else Except.ok (st.sensors.any fun x => x.sensorid == sid && x.groupid == gid)

/-- `find_max_groupid` (db.py:686-706). Unlike every other operation it
has no explicit `_open` guard: when the provider is not open the
connection access inside the `try` raises and the `except` converts that
into a `DBError`. On an empty groups collection `cursor.next()` raises
`StopIteration` (whose `str` is the empty string), likewise converted, so
the empty case is a `DBError`, not a sentinel value. -/
def find_max_groupid (st : DBState) : Except DBError MaxDoc :=
  if ¬ st.isOpen then
    Except.error "ERROR: MongoProvider object has no attribute _conn"
  else
    match listMax (st.groups.map (·.groupid)) with
    | none => Except.error "ERROR: "
    | some m => Except.ok ⟨m⟩

/-- `find_max_sensorid_in_group` (db.py:709-744): guarded, then the same
sort-and-project pipeline over the sensors of the group. -/
def find_max_sensorid_in_group (st : DBState) (gid : Int) : Except DBError MaxDoc :=
  if ¬ st.isOpen then
    Except.error "Cannot retrieve stats for sensor, database connection not open!"
  else
    match listMax ((st.sensors.filter fun x => x.groupid == gid).map (·.sensorid)) with
    | none => Except.error "ERROR: "
    | some m => Except.ok ⟨m⟩

/-- `get_groups` (db.py:747-761). -/
def get_groups (st : DBState) : Except DBError (List Group) :=
  if ¬ st.isOpen then Except.error "Cannot get groups, database connection not open!"
  else Except.ok st.groups

/-- `get_rtypes` (db.py:788-801). -/
def get_rtypes (st : DBState) : Except DBError (List RType) :=
  if ¬ st.isOpen then Except.error "Cannot get rtypes, database connection not open!"
  else Except.ok st.rtypes

/-- `get_sensors` (db.py:804-819). -/
def get_sensors (st : DBState) (gid : Int) : Except DBError (List Sensor) :=
  if ¬ st.isOpen then Except.error "Cannot get sensors, database connection not open!"
  else Except.ok (st.sensors.filter fun x => x.groupid == gid)

/-- `get_readings` (db.py:764-785): filter, newest first, at most `limit`
documents. The reading-type filter is only applied when `rtypeid` is
truthy (`if rtypeid:`). -/
def get_readings (st : DBState) (sid gid : Int) (rt? : Option Int) (lim : Nat) :
    Except DBError (List Reading) :=
  if ¬ st.isOpen then Except.error "Cannot get readings, database connection not open!"
  else
    let docs :=
      if truthy rt? then
        st.readings.filter fun r =>
          r.sensorid == sid && r.groupid == gid && some r.rtypeid == rt?
      else st.readings.filter fun r => r.sensorid == sid && r.groupid == gid
    Except.ok ((sortTsDesc docs).take lim)

/-- `get_readings_by_period` (db.py:1054-1105): match on sensor and group,
sort descending by ts, then the two time bounds. -/
def get_readings_by_period (st : DBState) (sid gid s e : Int) :
    Except DBError (List Reading) :=
  if ¬ st.isOpen then
    Except.error "Cannot retrieve sensor readings, database connection not open!"
  else
    Except.ok
      (((sortTsDesc (st.readings.filter fun r => r.sensorid == sid && r.groupid == gid)).filter
          fun r => r.ts ≤ e).filter fun r => s ≤ r.ts)

/-- `insert_group` (db.py:822-842): checks `does_group_exist` (the
connection is already known open here) and only inserts when absent;
either way the return value is `(True, None)`. -/
def insert_group (st : DBState) (gid : Int) (a : String) :
    Except DBError (Bool × Option DBError) × DBState :=
  if ¬ st.isOpen then
    (Except.error "Cannot insert group, database connection not open!", st)
  else if st.groups.any (fun g => g.groupid == gid) then (Except.ok (true, none), st)
  else (Except.ok (true, none), { st with groups := st.groups ++ [⟨gid, a⟩] })

/-- `insert_sensor` (db.py:866-885): same shape as `insert_group`, keyed
on `(sensorid, groupid)`. -/
def insert_sensor (st : DBState) (sid gid : Int) (a : String) :
    Except DBError (Bool × Option DBError) × DBState :=
  if ¬ st.isOpen then
    (Except.error "Cannot insert sensor, database connection not open!", st)
  else if st.sensors.any (fun x => x.sensorid == sid && x.groupid == gid) then
    (Except.ok (true, none), st)
  else (Except.ok (true, none), { st with sensors := st.sensors ++ [⟨sid, gid, a⟩] })

/-- The per-iteration slice width of the `insert_readings` while-loop:
`step = batch_size if index + batch_size < lim else lim - index`, i.e.
`batch_size` while more than `batch_size` readings remain, else the rest
(`l` stands for the remaining slice `readings[index:]`). -/
def chunkStep (l : List Reading) (batch : Nat) : Nat :=
  if batch < l.length then batch else l.length

/-- The while-loop of `insert_readings` (db.py:855-860), as the sequence
of chunks handed to `insert_many`, one per iteration. `fuel` bounds the
iterations; `readings.length` suffices whenever `batch_size > 0`.
`insert_many` of an empty chunk — which happens exactly when
`batch_size = 0` on a nonempty list — raises in the driver. -/
def chunkLoop : Nat → List Reading → Nat → Except DBError (List (List Reading))
  | _, [], _ => Except.ok []
  | 0, _ :: _, _ => Except.ok []
  | fuel + 1, x :: xs, batch =>
      if (x :: xs).take (chunkStep (x :: xs) batch) = [] then
        Except.error "ERROR: documents must be a non-empty list"
      else
        match chunkLoop fuel ((x :: xs).drop (chunkStep (x :: xs) batch)) batch with
        | Except.ok rest => Except.ok ((x :: xs).take (chunkStep (x :: xs) batch) :: rest)
        | Except.error err => Except.error err

/-- `insert_readings` (db.py:845-863). A driver exception inside the loop
is returned as `(False, DBError)`; otherwise `(True, None)` with all
chunks inserted. -/
def insert_readings (st : DBState) (rs : List Reading) (batch : Nat) :
    Except DBError (Bool × Option DBError) × DBState :=
  if ¬ st.isOpen then
    (Except.error "Cannot insert readings, database connection not open!", st)
  else
    match chunkLoop rs.length rs batch with
    | Except.ok chunks =>
        (Except.ok (true, none), { st with readings := st.readings ++ chunks.flatten })
    | Except.error err => (Except.ok (false, some err), st)

/-- `delete_group` (db.py:492-523). The readings `delete_many` executes
against the backend, but `count += ...` then raises `TypeError` (pymongo's
`delete_many` returns a `DeleteResult`, which cannot be added to an
`int`), so the sensors and group deletions are never reached; the `except`
re-raises as `DBError` while the readings deletion persists. -/
def delete_group (st : DBState) (gid : Int) : Except DBError Int × DBState :=
  if ¬ st.isOpen then
    (Except.error "ERROR: Cannot delete group from database, database connection is not open!", st)
  else
    (Except.error "ERROR: unsupported operand type(s) for +=: int and DeleteResult",
     { st with readings := st.readings.filter fun r => r.groupid != gid })

/-- `delete_reading` (db.py:526-550): deletes the first matching reading
and returns `delete_one`'s `DeleteResult` (the docstring promises an
`int`, but the result object is returned as-is). -/
def delete_reading (st : DBState) (sid gid rid ts : Int) :
    Except DBError DeleteResult × DBState :=
  if ¬ st.isOpen then
    (Except.error "ERROR: Cannot delete reading from database, database connection is not open!", st)
  else
    let p : Reading → Bool := fun r =>
      r.sensorid == sid && r.groupid == gid && r.rtypeid == rid && r.ts == ts
    (Except.ok ⟨if st.readings.any p then 1 else 0⟩,
     { st with readings := st.readings.eraseP p })

/-- `delete_readings` (db.py:553-576): the reading-type filter only
applies when `rtypeid` is truthy; then `count += delete_many` raises as in
`delete_group`, after the deletion has executed. -/
def delete_readings (st : DBState) (sid gid : Int) (rt? : Option Int) :
    Except DBError Int × DBState :=
  if ¬ st.isOpen then
    (Except.error "ERROR: Cannot delete readings from database, database connection is not open!", st)
  else
    let q : Reading → Bool :=
      if truthy rt? then fun r =>
        r.sensorid == sid && r.groupid == gid && some r.rtypeid == rt?
      else fun r => r.sensorid == sid && r.groupid == gid
    (Except.error "ERROR: unsupported operand type(s) for +=: int and DeleteResult",
     { st with readings := st.readings.filter fun r => ! q r })

/-- `delete_rtype` (db.py:579-605): deletes the readings of the type, then
`count += delete_many` raises, so the rtype record itself is never
deleted. -/
def delete_rtype (st : DBState) (rid : Int) : Except DBError Int × DBState :=
  if ¬ st.isOpen then
    (Except.error "ERROR: Cannot delete reading type from database, database connection is not open!", st)
  else
    (Except.error "ERROR: unsupported operand type(s) for +=: int and DeleteResult",
     { st with readings := st.readings.filter fun r => r.rtypeid != rid })

/-- `delete_sensor` (db.py:608-637): same failure as `delete_group`; only
the readings of the sensor are deleted. -/
def delete_sensor (st : DBState) (gid sid : Int) : Except DBError Int × DBState :=
  if ¬ st.isOpen then
    (Except.error "ERROR: Cannot delete sensor from database, database connection is not open!", st)
  else
    (Except.error "ERROR: unsupported operand type(s) for +=: int and DeleteResult",
     { st with readings := st.readings.filter fun r => !(r.groupid == gid && r.sensorid == sid) })

/-- `stats_group` (db.py:907-953). The time `$match` stage is built from a
Python dict literal that repeats the key `"ts"`
(`"ts": gte start, "ts": lte end`): the second entry wins, so only
`ts <= end_ts` is applied. The pipeline has no aggregation stage, so
`cursor.next()` is just the first document after the descending sort, or
`StopIteration` (→ `DBError`) when nothing matches. -/
def stats_group (st : DBState) (gid rid _s e : Int) : Except DBError Reading :=
  if ¬ st.isOpen then
    Except.error "Cannot retrieve stats for sensor, database connection not open!"
  else
    match (sortTsDesc (st.readings.filter fun r => r.groupid == gid && r.rtypeid == rid)).filter
        (fun r => r.ts ≤ e) with
    | [] => Except.error "ERROR: "
    | d :: _ => Except.ok d

/-- The `val` fields of the readings the `stats_sensor` pipeline matches:
the `$match` on (sensorid, groupid, rtypeid), then the two time stages
(`ts <= end_ts`, then `ts >= start_ts`). The intervening `$sort` changes
neither which documents reach the `$facet` nor the value of
`$min`/`$max`/`$avg`, and is omitted. -/
def matchedVals (st : DBState) (sid gid rid s e : Int) : List Rat :=
  (((st.readings.filter fun r =>
        r.sensorid == sid && r.groupid == gid && r.rtypeid == rid).filter
      fun r => r.ts ≤ e).filter fun r => s ≤ r.ts).map (·.val)

/-- The `{min, max, avg}` container built by `stats_sensor`. -/
structure Stats where
  min : Rat
  max : Rat
  avg : Rat
deriving DecidableEq, Repr

/-- `stats_sensor` (db.py:956-1051). The `$facet` always yields one
document; its `min`/`max`/`avg` arrays are empty exactly when no documents
matched, in which case the code falls back to zeros; otherwise they hold
the `$min`, `$max` and `$avg` of the matched `val`s. -/
def stats_sensor (st : DBState) (sid gid rid s e : Int) : Except DBError Stats :=
  if ¬ st.isOpen then
    Except.error "Cannot retrieve stats for sensor, database connection not open!"
  else
    match matchedVals st sid gid rid s e with
    | [] => Except.ok ⟨0, 0, 0⟩
    | v :: vs =>
        Except.ok ⟨vs.foldl min v, vs.foldl max v, (v :: vs).sum / ((v :: vs).length : Rat)⟩

/-! ## Provisioning (`senslify/rest.py`, `_provision_handler`) -/

/-- The `group` branch of `_provision_handler` (rest.py:206-230): the
max-id query with `DBError` caught and replaced by `-1`, the increment,
the insert, and the `(groupid, alias)` response; a raised insert error
becomes a 403 error response. -/
def provisionGroup (st : DBState) (a : String) :
    Except String ((Int × String) × DBState) :=
  let max_groupid : Int :=
    match find_max_groupid st with
    | Except.error _ => -1
    | Except.ok doc => doc.max
  let groupid := max_groupid + 1
  match insert_group st groupid a with
  | (Except.error _, _) => Except.error "ERROR: An error has occurred with the database!"
  | (Except.ok (_, some _), _) => Except.error "ERROR: An error has occurred with the database!"
  | (Except.ok (_, none), st') => Except.ok ((groupid, a), st')

/-- The `sensor` branch of `_provision_handler` (rest.py:176-205),
symmetric to the group branch. -/
def provisionSensor (st : DBState) (gid : Int) (a : String) :
    Except String ((Int × String) × DBState) :=
  let max_sensorid : Int :=
    match find_max_sensorid_in_group st gid with
    | Except.error _ => -1
    | Except.ok doc => doc.max
  let sensorid := max_sensorid + 1
  match insert_sensor st sensorid gid a with
  | (Except.error _, _) => Except.error "ERROR: An error has occurred with the database!"
  | (Except.ok (_, some _), _) => Except.error "ERROR: An error has occurred with the database!"
  | (Except.ok (_, none), st') => Except.ok ((sensorid, a), st')

/-! ## Lemmas about the aggregation helpers -/

theorem listMax_mem (l : List Int) (m : Int) (h : listMax l = some m) : m ∈ l := by
  induction l generalizing m with
  | nil => simp [listMax] at h
  | cons x xs ih =>
      cases hx : listMax xs with
      | none =>
          simp [listMax, hx] at h
          simp [h]
      | some m' =>
          simp [listMax, hx] at h
          rcases max_choice x m' with hc | hc <;> rw [hc] at h
          · simp [h]
          · exact List.mem_cons_of_mem _ (h ▸ ih m' hx)

theorem listMax_le (l : List Int) (m : Int) (h : listMax l = some m) :
    ∀ x ∈ l, x ≤ m := by
  induction l generalizing m with
  | nil => simp
  | cons y ys ih =>
      intro x hx
      cases hy : listMax ys with
      | none =>
          have hnil : ys = [] := by
            cases ys with
            | nil => rfl
            | cons a as => simp [listMax] at hy; cases h' : listMax as <;> simp [h'] at hy
          subst hnil
          simp [listMax] at h
          simp at hx
          simp [hx, h]
      | some m' =>
          simp [listMax, hy] at h
          rcases List.mem_cons.mp hx with h1 | h1
          · subst h1; rw [← h]; exact le_max_left _ _
          · calc x ≤ m' := ih m' hy x h1
              _ ≤ m := h ▸ le_max_right y m'

theorem foldl_min_mem (vs : List Rat) : ∀ v : Rat, vs.foldl min v ∈ v :: vs := by
  induction vs with
  | nil => intro v; simp
  | cons x xs ih =>
      intro v
      rw [List.foldl_cons]
      rcases List.mem_cons.mp (ih (min v x)) with h1 | h1
      · rw [h1]
        rcases min_choice v x with hc | hc <;> rw [hc] <;> simp
      · exact List.mem_cons_of_mem _ (List.mem_cons_of_mem _ h1)

theorem foldl_min_le (vs : List Rat) :
    ∀ v : Rat, ∀ x ∈ v :: vs, vs.foldl min v ≤ x := by
  induction vs with
  | nil =>
      intro v x hx
      simp at hx
      simp [hx]
  | cons y ys ih =>
      intro v x hx
      rw [List.foldl_cons]
      have hself : ys.foldl min (min v y) ≤ min v y :=
        ih (min v y) (min v y) (List.mem_cons_self _ _)
      rcases List.mem_cons.mp hx with h1 | h1
      · rw [h1]; exact le_trans hself (min_le_left v y)
      · rcases List.mem_cons.mp h1 with h2 | h2
        · rw [h2]; exact le_trans hself (min_le_right v y)
        · exact ih (min v y) x (List.mem_cons_of_mem _ h2)

theorem foldl_max_mem (vs : List Rat) : ∀ v : Rat, vs.foldl max v ∈ v :: vs := by
  induction vs with
  | nil => intro v; simp
  | cons x xs ih =>
      intro v
      rw [List.foldl_cons]
      rcases List.mem_cons.mp (ih (max v x)) with h1 | h1
      · rw [h1]
        rcases max_choice v x with hc | hc <;> rw [hc] <;> simp
      · exact List.mem_cons_of_mem _ (List.mem_cons_of_mem _ h1)

theorem foldl_max_ge (vs : List Rat) :
    ∀ v : Rat, ∀ x ∈ v :: vs, x ≤ vs.foldl max v := by
  induction vs with
  | nil =>
      intro v x hx
      simp at hx
      simp [hx]
  | cons y ys ih =>
      intro v x hx
      rw [List.foldl_cons]
      have hself : max v y ≤ ys.foldl max (max v y) :=
        ih (max v y) (max v y) (List.mem_cons_self _ _)
      rcases List.mem_cons.mp hx with h1 | h1
      · rw [h1]; exact le_trans (le_max_left v y) hself
      · rcases List.mem_cons.mp h1 with h2 | h2
        · rw [h2]; exact le_trans (le_max_right v y) hself
        · exact ih (max v y) x (List.mem_cons_of_mem _ h2)

/-! ## Claims about the storage provider -/

/-- Claim C3: a sensor-scoped stats query over the window
`[start_ts, end_ts]` on an open provider returns `{min 0, max 0, avg 0}`
when no readings match the ids and window, and otherwise the exact
minimum, the exact maximum, and the arithmetic mean of the matched `val`
fields. -/
theorem stats_sensor_spec_C3 (st : DBState) (sid gid rid s e : Int)
    (hopen : st.isOpen = true) :
    (matchedVals st sid gid rid s e = [] →
      stats_sensor st sid gid rid s e = Except.ok ⟨0, 0, 0⟩) ∧
    (∀ v vs, matchedVals st sid gid rid s e = v :: vs →
      stats_sensor st sid gid rid s e =
        Except.ok ⟨vs.foldl min v, vs.foldl max v,
          (v :: vs).sum / ((v :: vs).length : Rat)⟩ ∧
      vs.foldl min v ∈ v :: vs ∧ (∀ x ∈ v :: vs, vs.foldl min v ≤ x) ∧
      vs.foldl max v ∈ v :: vs ∧ (∀ x ∈ v :: vs, x ≤ vs.foldl max v)) := by
  constructor
  · intro hm
    simp [stats_sensor, hopen, hm]
  · intro v vs hm
    refine ⟨by simp [stats_sensor, hopen, hm], foldl_min_mem vs v,
      foldl_min_le vs v, foldl_max_mem vs v, foldl_max_ge vs v⟩

/-- A concrete open provider state realizing the spec scenario: group 0,
sensor (0,0), the seeded rtype 0, and the single reading
`{sensorid 0, groupid 0, rtypeid 0, ts 1000, val 22.5}`. -/
def stScenario : DBState :=
  { isOpen := true
    groups := [⟨0, "site"⟩]
    sensors := [⟨0, 0, "sensor0"⟩]
    rtypes := [⟨0, "Temperature"⟩]
    readings := [⟨0, 0, 0, 1000, 45 / 2⟩] }

/-- Witness for C3 on `stScenario` with the window `[900, 1100]`. -/
theorem stats_sensor_spec_C3_witness :
    stScenario.isOpen = true ∧
    stats_sensor stScenario 0 0 0 900 1100 = Except.ok ⟨45 / 2, 45 / 2, 45 / 2⟩ := by
  refine ⟨rfl, ?_⟩
  have h := ((stats_sensor_spec_C3 stScenario 0 0 0 900 1100 rfl).2
    (45 / 2) [] rfl).1
  rw [h]
  norm_num

/-- Claim C4: every storage-provider operation — existence checks,
enumeration, inserts, deletes, stats and max-id queries — fails with a
`DBError` when invoked while the connection is not open. The guarded
operations raise it directly; `find_max_groupid`, which lacks the explicit
guard, fails on the connection access inside its `try` and its `except`
converts the failure into a `DBError`. -/
theorem closed_ops_fail_C4 (st : DBState) (h : st.isOpen = false)
    (gid sid rid ts s e : Int) (rt? : Option Int) (lim : Nat)
    (rs : List Reading) (batch : Nat) (a b : String) :
    isErr (does_group_exist st gid) = true ∧
    isErr (does_rtype_exist st rid) = true ∧
    isErr (does_sensor_exist st sid gid) = true ∧
    isErr (get_groups st) = true ∧
    isErr (get_rtypes st) = true ∧
    isErr (get_sensors st gid) = true ∧
    isErr (get_readings st sid gid rt? lim) = true ∧
    isErr (get_readings_by_period st sid gid s e) = true ∧
    isErr (insert_group st gid a).1 = true ∧
    isErr (insert_sensor st sid gid b).1 = true ∧
    isErr (insert_readings st rs batch).1 = true ∧
    isErr (delete_group st gid).1 = true ∧
    isErr (delete_reading st sid gid rid ts).1 = true ∧
    isErr (delete_readings st sid gid rt?).1 = true ∧
    isErr (delete_rtype st rid).1 = true ∧
    isErr (delete_sensor st gid sid).1 = true ∧
    isErr (stats_group st gid rid s e) = true ∧
    isErr (stats_sensor st sid gid rid s e) = true ∧
    isErr (find_max_groupid st) = true ∧
    isErr (find_max_sensorid_in_group st gid) = true := by
  repeat' apply And.intro
  all_goals
    simp [does_group_exist, does_rtype_exist, does_sensor_exist, get_groups,
      get_rtypes, get_sensors, get_readings, get_readings_by_period,
      insert_group, insert_sensor, insert_readings, delete_group,
      delete_reading, delete_readings, delete_rtype, delete_sensor,
      stats_group, stats_sensor, find_max_groupid,
      find_max_sensorid_in_group, isErr, h]

/-- A provider that was never opened (or was closed), with some data.  -/
def stClosed : DBState :=
  { isOpen := false
    groups := [⟨0, "site"⟩]
    sensors := [⟨0, 0, "sensor0"⟩]
    rtypes := [⟨0, "Temperature"⟩]
    readings := [⟨0, 0, 0, 1000, 3⟩] }

/-- Witness for C4 on the closed provider `stClosed`. -/
theorem closed_ops_fail_C4_witness :
    stClosed.isOpen = false ∧
    (isErr (does_group_exist stClosed 0) = true ∧
     isErr (does_rtype_exist stClosed 0) = true ∧
     isErr (does_sensor_exist stClosed 0 0) = true ∧
     isErr (get_groups stClosed) = true ∧
     isErr (get_rtypes stClosed) = true ∧
     isErr (get_sensors stClosed 0) = true ∧
     isErr (get_readings stClosed 0 0 none 100) = true ∧
     isErr (get_readings_by_period stClosed 0 0 900 1100) = true ∧
     isErr (insert_group stClosed 1 "g").1 = true ∧
     isErr (insert_sensor stClosed 1 0 "s").1 = true ∧
     isErr (insert_readings stClosed [] 100).1 = true ∧
     isErr (delete_group stClosed 0).1 = true ∧
     isErr (delete_reading stClosed 0 0 0 1000).1 = true ∧
     isErr (delete_readings stClosed 0 0 none).1 = true ∧
     isErr (delete_rtype stClosed 0).1 = true ∧
     isErr (delete_sensor stClosed 0 0).1 = true ∧
     isErr (stats_group stClosed 0 0 900 1100) = true ∧
     isErr (stats_sensor stClosed 0 0 0 900 1100) = true ∧
     isErr (find_max_groupid stClosed) = true ∧
     isErr (find_max_sensorid_in_group stClosed 0) = true) :=
  ⟨rfl, closed_ops_fail_C4 stClosed rfl 0 0 0 1000 900 1100 none 100 [] 100 "g" "s"⟩

/-- An open provider with no rows at all. -/
def stEmptyOpen : DBState :=
  { isOpen := true, groups := [], sensors := [], rtypes := [], readings := [] }

/-- Claim C5 counterexample: with no groups provisioned, the max-id query
does not return the sentinel `-1`: the empty aggregation cursor's `next()`
raises `StopIteration`, and `find_max_groupid` converts it into a
`DBError`. -/
theorem maxid_no_sentinel_C5_counterexample :
    find_max_groupid stEmptyOpen ≠ Except.ok ⟨-1⟩ ∧
    find_max_groupid stEmptyOpen = Except.error "ERROR: " := by
  constructor
  · intro hcontra
    simp [find_max_groupid, stEmptyOpen, listMax] at hcontra
  · rfl

/-- Claim C5 as amended: when no rows exist for the requested scope the
max-id query raises `DBError` (it never returns `-1`); the Provisioning
Service catches the `DBError` and substitutes `-1`, so the first
provisioned group — and the first sensor in a group — is assigned id `0`;
otherwise the next id is the current maximum plus one. -/
theorem provision_next_id_C5 (st : DBState) (hopen : st.isOpen = true)
    (a : String) (gid : Int) :
    (st.groups = [] →
      isErr (find_max_groupid st) = true ∧
      provisionGroup st a =
        Except.ok ((0, a), { st with groups := st.groups ++ [⟨0, a⟩] })) ∧
    (∀ m, listMax (st.groups.map (·.groupid)) = some m →
      provisionGroup st a =
        Except.ok ((m + 1, a), { st with groups := st.groups ++ [⟨m + 1, a⟩] })) ∧
    (st.sensors.filter (fun x => x.groupid == gid) = [] →
      isErr (find_max_sensorid_in_group st gid) = true ∧
      provisionSensor st gid a =
        Except.ok ((0, a), { st with sensors := st.sensors ++ [⟨0, gid, a⟩] })) ∧
    (∀ m, listMax ((st.sensors.filter (fun x => x.groupid == gid)).map (·.sensorid)) = some m →
      provisionSensor st gid a =
        Except.ok ((m + 1, a), { st with sensors := st.sensors ++ [⟨m + 1, gid, a⟩] })) := by
  refine ⟨?_, ?_, ?_, ?_⟩
  · intro hg
    have hmax : find_max_groupid st = Except.error "ERROR: " := by
      simp [find_max_groupid, hopen, hg, listMax]
    have hany : st.groups.any (fun g => g.groupid == (0 : Int)) = false := by
      simp [hg]
    refine ⟨by simp [hmax, isErr], ?_⟩
    simp [provisionGroup, hmax, insert_group, hopen, hany]
  · intro m hm
    have hmax : find_max_groupid st = Except.ok ⟨m⟩ := by
      simp [find_max_groupid, hopen, hm]
    have hany : st.groups.any (fun g => g.groupid == m + 1) = false := by
      rw [List.any_eq_false]
      intro g hgmem
      have hle : g.groupid ≤ m :=
        listMax_le _ m hm g.groupid (List.mem_map_of_mem _ hgmem)
      simp only [beq_iff_eq]
      omega
    simp [provisionGroup, hmax, insert_group, hopen, hany]
  · intro hs
    have hmax : find_max_sensorid_in_group st gid = Except.error "ERROR: " := by
      simp [find_max_sensorid_in_group, hopen, hs, listMax]
    have hany : st.sensors.any (fun x => x.sensorid == (0 : Int) && x.groupid == gid) = false := by
      rw [List.any_eq_false]
      intro x hx
      have hng := List.filter_eq_nil_iff.mp hs x hx
      simp only [beq_iff_eq] at hng
      simp only [Bool.and_eq_true, beq_iff_eq, not_and]
      intro _
      exact hng
    refine ⟨by simp [hmax, isErr], ?_⟩
    simp [provisionSensor, hmax, insert_sensor, hopen, hany]
  · intro m hm
    have hmax : find_max_sensorid_in_group st gid = Except.ok ⟨m⟩ := by
      simp [find_max_sensorid_in_group, hopen, hm]
    have hany : st.sensors.any (fun x => x.sensorid == m + 1 && x.groupid == gid) = false := by
      rw [List.any_eq_false]
      intro x hx
      simp only [Bool.and_eq_true, beq_iff_eq, not_and]
      intro hsid hgid
      have hxmem : x ∈ st.sensors.filter (fun x => x.groupid == gid) :=
        List.mem_filter.mpr ⟨hx, by simp [hgid]⟩
      have hle : x.sensorid ≤ m :=
        listMax_le _ m hm x.sensorid (List.mem_map_of_mem _ hxmem)
      omega
    simp [provisionSensor, hmax, insert_sensor, hopen, hany]

/-- Witness for the amended C5 on the open empty provider. -/
theorem provision_next_id_C5_witness :
    stEmptyOpen.isOpen = true ∧
    ((stEmptyOpen.groups = [] →
      isErr (find_max_groupid stEmptyOpen) = true ∧
      provisionGroup stEmptyOpen "alpha" =
        Except.ok ((0, "alpha"),
          { stEmptyOpen with groups := stEmptyOpen.groups ++ [⟨0, "alpha"⟩] })) ∧
    (∀ m, listMax (stEmptyOpen.groups.map (·.groupid)) = some m →
      provisionGroup stEmptyOpen "alpha" =
        Except.ok ((m + 1, "alpha"),
          { stEmptyOpen with groups := stEmptyOpen.groups ++ [⟨m + 1, "alpha"⟩] })) ∧
    (stEmptyOpen.sensors.filter (fun x => x.groupid == 0) = [] →
      isErr (find_max_sensorid_in_group stEmptyOpen 0) = true ∧
      provisionSensor stEmptyOpen 0 "alpha" =
        Except.ok ((0, "alpha"),
          { stEmptyOpen with sensors := stEmptyOpen.sensors ++ [⟨0, 0, "alpha"⟩] })) ∧
    (∀ m, listMax ((stEmptyOpen.sensors.filter (fun x => x.groupid == 0)).map (·.sensorid)) = some m →
      provisionSensor stEmptyOpen 0 "alpha" =
        Except.ok ((m + 1, "alpha"),
          { stEmptyOpen with sensors := stEmptyOpen.sensors ++ [⟨m + 1, 0, "alpha"⟩] }))) :=
  ⟨rfl, provision_next_id_C5 stEmptyOpen rfl "alpha" 0⟩

/-- An open provider with group 0, sensor (0,0), rtype 0, one reading in
group 0 of type 0 and one unrelated reading. -/
def stDel : DBState :=
  { isOpen := true
    groups := [⟨0, "site"⟩]
    sensors := [⟨0, 0, "sensor0"⟩]
    rtypes := [⟨0, "Temperature"⟩]
    readings := [⟨0, 0, 0, 1000, 3⟩, ⟨5, 3, 1, 2000, 7⟩] }

/-- Claim C6 (code bug): the cascade deletes do not behave as documented.
On `stDel`, `delete_group 0` deletes only the readings of group `0` and
then raises `DBError`: pymongo's `delete_many` returns a `DeleteResult`
object and `count += DeleteResult` is a `TypeError`, so the sensors and
the group record are never deleted, no count is returned, and
`does_group_exist` still answers `true` afterwards. `delete_rtype 0`
likewise deletes only the readings of type `0`, keeps the rtype record
(so `does_rtype_exist` stays `true`), and raises. -/
theorem delete_cascade_broken_C6 :
    isErr (delete_group stDel 0).1 = true ∧
    (delete_group stDel 0).2.groups = stDel.groups ∧
    (delete_group stDel 0).2.sensors = stDel.sensors ∧
    (delete_group stDel 0).2.readings = [⟨5, 3, 1, 2000, 7⟩] ∧
    does_group_exist (delete_group stDel 0).2 0 = Except.ok true ∧
    isErr (delete_rtype stDel 0).1 = true ∧
    (delete_rtype stDel 0).2.rtypes = stDel.rtypes ∧
    (delete_rtype stDel 0).2.readings = [⟨5, 3, 1, 2000, 7⟩] ∧
    does_rtype_exist (delete_rtype stDel 0).2 0 = Except.ok true :=
  ⟨rfl, rfl, rfl, rfl, rfl, rfl, rfl, rfl, rfl⟩

theorem chunkLoop_spec (fuel : Nat) : ∀ (l : List Reading) (batch : Nat),
    0 < batch → l.length ≤ fuel →
    ∃ chunks, chunkLoop fuel l batch = Except.ok chunks ∧
      chunks.flatten = l ∧ ∀ c ∈ chunks, c.length ≤ batch := by
  induction fuel with
  | zero =>
      intro l batch hb hl
      have : l = [] := List.eq_nil_of_length_eq_zero (Nat.le_zero.mp hl)
      subst this
      exact ⟨[], rfl, rfl, by simp⟩
  | succ n ih =>
      intro l batch hb hl
      cases l with
      | nil => exact ⟨[], rfl, rfl, by simp⟩
      | cons x xs =>
          have hpos : 0 < chunkStep (x :: xs) batch := by
            unfold chunkStep
            split
            · exact hb
            · simp
          have hsb : chunkStep (x :: xs) batch ≤ batch := by
            unfold chunkStep
            split
            · exact le_refl _
            · omega
          have htake : ¬ ((x :: xs).take (chunkStep (x :: xs) batch) = []) := by
            cases hcs : chunkStep (x :: xs) batch with
            | zero => omega
            | succ k => simp
          have hdrop : ((x :: xs).drop (chunkStep (x :: xs) batch)).length ≤ n := by
            rw [List.length_drop]
            have hlen : (x :: xs).length ≤ n + 1 := hl
            omega
          obtain ⟨rest, h1, h2, h3⟩ := ih ((x :: xs).drop (chunkStep (x :: xs) batch)) batch hb hdrop
          refine ⟨(x :: xs).take (chunkStep (x :: xs) batch) :: rest, ?_, ?_, ?_⟩
          · simp only [chunkLoop]
            rw [if_neg htake, h1]
          · simp [h2]
          · intro c hc
            rcases List.mem_cons.mp hc with hc1 | hc1
            · rw [hc1, List.length_take]
              exact le_trans (min_le_left _ _) hsb
            · exact h3 c hc1

/-- Claim C8: for every finite list of readings and every positive batch
size, `insert_readings` on an open provider issues `insert_many` calls
whose chunks each contain at most `batch_size` readings and whose
concatenation is exactly the input list in order; the stored readings gain
exactly the input list and the call returns `(True, None)`. -/
theorem insert_readings_chunks_C8 (st : DBState) (rs : List Reading)
    (batch : Nat) (hopen : st.isOpen = true) (hb : 0 < batch) :
    ∃ chunks, chunkLoop rs.length rs batch = Except.ok chunks ∧
      chunks.flatten = rs ∧ (∀ c ∈ chunks, c.length ≤ batch) ∧
      insert_readings st rs batch =
        (Except.ok (true, none), { st with readings := st.readings ++ rs }) := by
  obtain ⟨chunks, h1, h2, h3⟩ := chunkLoop_spec rs.length rs batch hb (le_refl _)
  refine ⟨chunks, h1, h2, h3, ?_⟩
  simp [insert_readings, hopen, h1, h2]

/-- Three readings to insert with batch size 2. -/
def rsBatch : List Reading :=
  [⟨0, 0, 0, 1001, 1⟩, ⟨0, 0, 0, 1002, 2⟩, ⟨0, 0, 0, 1003, 3⟩]

/-- Witness for C8: three readings, batch size 2, on the scenario state. -/
theorem insert_readings_chunks_C8_witness :
    stScenario.isOpen = true ∧ 0 < 2 ∧
    (∃ chunks, chunkLoop rsBatch.length rsBatch 2 = Except.ok chunks ∧
      chunks.flatten = rsBatch ∧ (∀ c ∈ chunks, c.length ≤ 2) ∧
      insert_readings stScenario rsBatch 2 =
        (Except.ok (true, none),
         { stScenario with readings := stScenario.readings ++ rsBatch })) :=
  ⟨rfl, by decide, insert_readings_chunks_C8 stScenario rsBatch 2 rfl (by decide)⟩

/-- Claim C10: on an open provider, `insert_group` with a `groupid` that
already exists leaves the state unchanged and still returns
`(True, None)`; `insert_sensor` with an existing `(sensorid, groupid)`
pair likewise — duplicate inserts of these entities are silently absorbed
rather than reported as errors. -/
theorem duplicate_insert_absorbed_C10 (st : DBState) (gid sid : Int)
    (a b : String) (hopen : st.isOpen = true)
    (hg : st.groups.any (fun g => g.groupid == gid) = true)
    (hs : st.sensors.any (fun x => x.sensorid == sid && x.groupid == gid) = true) :
    insert_group st gid a = (Except.ok (true, none), st) ∧
    insert_sensor st sid gid b = (Except.ok (true, none), st) := by
  constructor
  · simp [insert_group, hopen, hg]
  · simp [insert_sensor, hopen, hs]

/-- Witness for C10: re-inserting group `0` and sensor `(0, 0)` of the
scenario state. -/
theorem duplicate_insert_absorbed_C10_witness :
    stScenario.isOpen = true ∧
    stScenario.groups.any (fun g => g.groupid == (0 : Int)) = true ∧
    stScenario.sensors.any (fun x => x.sensorid == (0 : Int) && x.groupid == (0 : Int)) = true ∧
    (insert_group stScenario 0 "dup" = (Except.ok (true, none), stScenario) ∧
     insert_sensor stScenario 0 0 "dup2" = (Except.ok (true, none), stScenario)) :=
  ⟨rfl, rfl, rfl,
   duplicate_insert_absorbed_C10 stScenario 0 0 "dup" "dup2" rfl rfl rfl⟩

end Senslify
